import Mathlib

/-
Verification of the module-bootstrap registrar and the health-check
aggregator of src/src/function_app.py (an Azure Functions app shell).

The embedding is shallow: Python dictionaries become association lists of
string keys mapped to JSON-like values, environment lookup becomes a lookup
in an explicit environment, the external I/O calls of the two dependency
probes become explicit outcome parameters (an Except value: the exception
text on failure, the observed data on success), and the catch-all exception
handlers of the source become the corresponding match on that outcome.
-/

namespace Snippy

/-- JSON-like values as they appear in the health-check response
dictionaries: booleans, strings, Python None, and nested dictionaries. -/
inductive Val where
  | vBool : Bool → Val
  | vStr : String → Val
  | vNone : Val
  | vDict : List (String × Val) → Val

/-- Python dict lookup d.get(k): the first binding of the key, if any. -/
def dictGet (d : List (String × Val)) (k : String) : Option Val :=
  (d.find? (fun p => p.1 == k)).map (fun p => p.2)

/-- Python dict assignment d[k] = v: replace an existing binding in place,
otherwise append the new binding at the end (insertion order preserved). -/
def dictSet (d : List (String × Val)) (k : String) (v : Val) : List (String × Val) :=
  if d.any (fun p => p.1 == k) then
    d.map (fun p => if p.1 == k then (k, v) else p)
  else
    d ++ [(k, v)]

/-- Python d.update(u): assign every binding of u into d, in order. -/
def dictUpdate (d u : List (String × Val)) : List (String × Val) :=
  u.foldl (fun acc p => dictSet acc p.1 p.2) d

/-- Python truthiness of an optional value, as used on the result of
d.get(k): a missing key (None) is falsy. -/
def truthy : Option Val → Bool
  | none => false
  | some (.vBool b) => b
  | some (.vStr s) => !s.isEmpty
  | some .vNone => false
  | some (.vDict d) => !d.isEmpty

/-- Python x and y on optional values: the left operand if it is falsy,
otherwise the right operand. -/
def pyAnd (a b : Option Val) : Option Val :=
  if truthy a then b else a

/-- Python truthiness of an optional string (os.environ.get result):
None and the empty string are falsy. -/
def strTruthy : Option String → Bool
  | none => false
  | some s => !s.isEmpty

/-- Python x or y on optional strings: the left operand if truthy,
otherwise the right operand. -/
def pyOr (a b : Option String) : Option String :=
  if strTruthy a then a else b

/-- Python x or d where d is a non-empty string literal: the left operand
if truthy, otherwise the literal. -/
def pyOrDefault (a : Option String) (d : String) : String :=
  if strTruthy a then a.getD d else d

/-- The process environment (os.environ): a finite string-to-string map. -/
structure Env where
  vars : List (String × String)

/-- os.environ.get(k): the first binding of the key, if any. -/
def Env.get (e : Env) (k : String) : Option String :=
  (e.vars.find? (fun p => p.1 == k)).map (fun p => p.2)

/-- An HTTP response as constructed by func.HttpResponse: a status code
and a JSON body, kept as the dictionary that json.dumps would serialize. -/
structure HttpResponse where
  status_code : Nat
  body : List (String × Val)

/- ----------------------------------------------------------------------
Module registration (function_app.py lines 43-90).

The source is five textually repeated blocks, one per feature module, each
of the form: try import the module and app.register_blueprint of its
blueprint; except ImportError log; except Exception log.  Each block
catches every exception class, so each block runs to completion and the
next block is always reached; a block changes the application state only
when both the import and the registration succeed.  The embedding folds
the five blocks over the fixed module list, with each block's possible
outcomes given by an oracle.
---------------------------------------------------------------------- -/

/-- Outcome of one registration block: the import and registration both
succeeded, or the import raised (caught by the except ImportError arm), or
the registration action raised (caught by the except Exception arm). -/
inductive RegOutcome where
  | success
  | importError : String → RegOutcome
  | registrationError : String → RegOutcome

/-- Whether a registration block succeeded. -/
def RegOutcome.isSuccess : RegOutcome → Bool
  | .success => true
  | .importError _ => false
  | .registrationError _ => false

/-- The application state observable from outside: which modules were
attempted (one try block each, in order) and which blueprints ended up
registered on the func.FunctionApp. -/
structure AppState where
  attempted : List String
  registered : List String

/-- One try/except block of lines 43-90: on success the blueprint is
registered; on either exception the error is logged and the application is
left unchanged.  In every case the block completes normally. -/
def register_module (app : AppState) (name : String) (o : RegOutcome) : AppState :=
  match o with
  | .success => ⟨app.attempted ++ [name], app.registered ++ [name]⟩
  | .importError _ => ⟨app.attempted ++ [name], app.registered⟩
  | .registrationError _ => ⟨app.attempted ++ [name], app.registered⟩

/-- The five feature modules, in the fixed source order of lines 43-90. -/
def moduleNames : List String :=
  ["bp_snippy", "query", "bp_embeddings", "bp_ingestion", "bp_multi_agent"]

/-- The bootstrap sequence of lines 43-90: the five registration blocks
run in order, starting from an empty func.FunctionApp; the outcome of each
block is supplied by the oracle. -/
def bootstrap (o : String → RegOutcome) : AppState :=
  moduleNames.foldl (fun app n => register_module app n (o n)) ⟨[], []⟩

/- ----------------------------------------------------------------------
Shallow health check (function_app.py lines 98-119).
---------------------------------------------------------------------- -/

/-- The body of the try block of http_health_check: constructing the
constant success response.  It is a pure construction, so as an Except
computation it always succeeds. -/
def build_health_body : Except String HttpResponse :=
  .ok ⟨200, [("status", .vStr "ok")]⟩

/-- GET /health (lines 98-119): return the constant success response; the
except arm would return a 500 error response with the exception text. -/
def http_health_check : HttpResponse :=
  match build_health_body with
  | .ok r => r
  | .error e => ⟨500, [("status", .vStr "error"), ("message", .vStr e)]⟩

/- ----------------------------------------------------------------------
Extended health check (function_app.py lines 123-188).
---------------------------------------------------------------------- -/

/-- The exception text of the ValueError raised at line 140. -/
def missingConnMsg : String :=
  "Missing AzureWebJobsStorage/ STORAGE_CONNECTION_STRING env var"

/-- Line 133: the connection string, first of two environment variables. -/
def connStr (env : Env) : Option String :=
  pyOr (env.get ("AzureWebJobsStorage")) (env.get ("STORAGE_CONNECTION_STRING"))

/-- Lines 134-138: the ingestion container name with its fallback chain
ending in the literal default. -/
def ingestionContainer (env : Env) : String :=
  pyOrDefault
    (pyOr (env.get ("INGESTION_CONTAINER")) (env.get ("STORAGE_CONTAINER_SNIPPETINPUT")))
    "snippet-input"

/-- Storage probe, lines 128 and 131-154.  The result dictionary starts as
ok mapped to false.  If the connection string is missing or empty, the
ValueError of line 140 is raised before any client is constructed; any
exception of the blob calls (from_connection_string, get_container_client,
get_container_properties, modelled together by the blobCall oracle, which
on success yields the observed account url) is caught by the same handler;
either way the handler records the exception text under the error key.  On
success the dictionary is updated with ok true, the container name and the
account url. -/
def storage_probe (env : Env)
    (blobCall : String → String → Except String String) : List (String × Val) :=
  let storage_result : List (String × Val) := [("ok", .vBool false)]
  if strTruthy (connStr env) = false then
    dictUpdate storage_result [("error", .vStr missingConnMsg)]
  else
    match blobCall ((connStr env).getD "") (ingestionContainer env) with
    | .error e => dictUpdate storage_result [("error", .vStr e)]
    | .ok account_url =>
        dictUpdate storage_result
          [("ok", .vBool true),
           ("container", .vStr (ingestionContainer env)),
           ("account_url", .vStr account_url)]

/-- Python None for a missing environment value, as json.dumps renders it. -/
def optStrVal : Option String → Val
  | none => .vNone
  | some s => .vStr s

/-- The exception text of the NameError raised at line 159 when the import
of cosmos_ops at lines 32-36 failed at process start, leaving the name
undefined. -/
def nameErrorMsg : String :=
  "name \x27cosmos_ops\x27 is not defined"

/-- Cosmos probe, lines 129 and 156-172.  The result dictionary starts as
ok mapped to false.  If the cosmos_ops import failed at startup (importOk
false), evaluating cosmos_ops at line 159 raises a NameError; otherwise
the cosmos calls (get_container, query_items and the iteration, modelled
together by the cosmosCall oracle) may raise.  Every exception is caught
at line 170 and its text recorded under the error key.  On success the
dictionary is updated with ok true and the database and container names
from the environment. -/
def cosmos_probe (env : Env) (importOk : Bool)
    (cosmosCall : Except String Unit) : List (String × Val) :=
  let cosmos_result : List (String × Val) := [("ok", .vBool false)]
  let outcome : Except String Unit :=
    if importOk then cosmosCall else .error nameErrorMsg
  match outcome with
  | .error e => dictUpdate cosmos_result [("error", .vStr e)]
  | .ok _ =>
      dictUpdate cosmos_result
        [("ok", .vBool true),
         ("database", optStrVal (env.get ("COSMOS_DATABASE_NAME"))),
         ("container", optStrVal (env.get ("COSMOS_CONTAINER_NAME")))]

/-- GET /health_extended (lines 123-188): run both probes, derive the
overall status by Python and of the two ok lookups (line 174), choose the
status string and the HTTP status (lines 175-176), and assemble the body
with the status and both probe dictionaries (lines 178-182). -/
def http_health_check_extended (env : Env)
    (blobCall : String → String → Except String String)
    (importOk : Bool) (cosmosCall : Except String Unit) : HttpResponse :=
  let storage_result := storage_probe env blobCall
  let cosmos_result := cosmos_probe env importOk cosmosCall
  let overall_ok := pyAnd (dictGet storage_result ("ok")) (dictGet cosmos_result ("ok"))
  let status := if truthy overall_ok then "ok" else "error"
  let http_status := if truthy overall_ok then 200 else 500
  ⟨http_status,
   [("status", .vStr status),
    ("storage", .vDict storage_result),
    ("cosmos", .vDict cosmos_result)]⟩

/- ----------------------------------------------------------------------
Effect model of the cosmos probe body (lines 157-162).

The module data/cosmos_ops is not among the provided sources; its two
operations are modelled from the spec, which describes the database-client
capability as exposing "get or create container handle" and "run a bounded
top-N query returning an asynchronous item sequence".  The state of the
database backend is whether the container exists and the item ids it
holds.
---------------------------------------------------------------------- -/

/-- The observable state of the Cosmos backend: whether the configured
container exists and the ids of the items it holds. -/
structure CosmosState where
  containerExists : Bool
  items : List String
  deriving DecidableEq

/-- Modelled from the spec: cosmos_ops.get_container (data/cosmos_ops is
not among the provided sources) is the database-client capability "get or
create container handle", matching the source comment at line 158 "Attempt
to get (and if needed create) the container": after the call the container
exists. -/
def get_container (s : CosmosState) : CosmosState :=
  ⟨true, s.items⟩

/-- Modelled from the spec: container.query_items running the bounded
query of line 161, "SELECT TOP 1 c.id FROM c", yields at most the first
item id and reads nothing else. -/
def query_items_top1 (s : CosmosState) : List String :=
  s.items.take 1

/-- The happy path of lines 157-162 as a state transformer: get (or
create) the container, run the top-1 query, and keep at most one item of
the materialized result (the slice at line 162).  Returns the state of the
backend after the probe and the ids the probe fetched. -/
def cosmos_probe_effect (s : CosmosState) : CosmosState × List String :=
  let s1 := get_container s
  let fetched := query_items_top1 s1
  (s1, fetched.take 1)

/- ----------------------------------------------------------------------
Concrete fixtures used to exercise the endpoints on closed inputs.
---------------------------------------------------------------------- -/

/-- A fully configured environment. -/
def envFull : Env :=
  ⟨[("AzureWebJobsStorage", "UseDevelopmentStorage=true"),
    ("COSMOS_DATABASE_NAME", "dev-snippet-db"),
    ("COSMOS_CONTAINER_NAME", "code-snippets")]⟩

/-- An environment with no variables set at all. -/
def envEmpty : Env := ⟨[]⟩

/-- A blob backend whose calls all succeed, yielding the account url. -/
def blobOk : String → String → Except String String :=
  fun _ _ => .ok "https://devstoreaccount1.blob.core.windows.net/"

/-- A blob backend whose property fetch raises. -/
def blobDown : String → String → Except String String :=
  fun _ _ => .error "storage unreachable"

/-- A cosmos backend whose calls all succeed. -/
def cosmosOk : Except String Unit := .ok ()

/-- A cosmos backend whose calls raise. -/
def cosmosDown : Except String Unit := .error "cosmos unreachable"

/- ----------------------------------------------------------------------
Helper lemmas.
---------------------------------------------------------------------- -/

lemma truthy_pyAnd (a b : Option Val) : truthy (pyAnd a b) = (truthy a && truthy b) := by
  unfold pyAnd
  cases h : truthy a <;> simp [h]

lemma ext_body (env : Env) (b : String → String → Except String String)
    (i : Bool) (c : Except String Unit) :
    (http_health_check_extended env b i c).body =
      [("status", .vStr (if truthy (dictGet (storage_probe env b) ("ok")) &&
                            truthy (dictGet (cosmos_probe env i c) ("ok"))
                         then "ok" else "error")),
       ("storage", .vDict (storage_probe env b)),
       ("cosmos", .vDict (cosmos_probe env i c))] := by
  simp only [http_health_check_extended, truthy_pyAnd]

lemma ext_status_code (env : Env) (b : String → String → Except String String)
    (i : Bool) (c : Except String Unit) :
    (http_health_check_extended env b i c).status_code =
      (if truthy (dictGet (storage_probe env b) ("ok")) &&
          truthy (dictGet (cosmos_probe env i c) ("ok")) then 200 else 500) := by
  simp only [http_health_check_extended, truthy_pyAnd]

lemma body_get_status (s : String) (a b : List (String × Val)) :
    dictGet [("status", Val.vStr s), ("storage", .vDict a), ("cosmos", .vDict b)] ("status") =
      some (.vStr s) := rfl

lemma body_get_storage (s : String) (a b : List (String × Val)) :
    dictGet [("status", Val.vStr s), ("storage", .vDict a), ("cosmos", .vDict b)] ("storage") =
      some (.vDict a) := rfl

lemma body_get_cosmos (s : String) (a b : List (String × Val)) :
    dictGet [("status", Val.vStr s), ("storage", .vDict a), ("cosmos", .vDict b)] ("cosmos") =
      some (.vDict b) := rfl

lemma storage_probe_cases (env : Env) (b : String → String → Except String String) :
    (strTruthy (connStr env) = false ∧
      storage_probe env b = [("ok", .vBool false), ("error", .vStr missingConnMsg)]) ∨
    (∃ e, strTruthy (connStr env) = true ∧
      b ((connStr env).getD "") (ingestionContainer env) = .error e ∧
      storage_probe env b = [("ok", .vBool false), ("error", .vStr e)]) ∨
    (∃ u, strTruthy (connStr env) = true ∧
      b ((connStr env).getD "") (ingestionContainer env) = .ok u ∧
      storage_probe env b =
        [("ok", .vBool true), ("container", .vStr (ingestionContainer env)),
         ("account_url", .vStr u)]) := by
  cases h : strTruthy (connStr env) with
  | false =>
      left
      refine ⟨rfl, ?_⟩
      simp only [storage_probe]
      rw [if_pos h]
      rfl
  | true =>
      have hcond : ¬ (strTruthy (connStr env) = false) := by simp [h]
      cases hb : b ((connStr env).getD "") (ingestionContainer env) with
      | error e =>
          right; left
          refine ⟨e, rfl, rfl, ?_⟩
          simp only [storage_probe]
          rw [if_neg hcond, hb]
          rfl
      | ok u =>
          right; right
          refine ⟨u, rfl, rfl, ?_⟩
          simp only [storage_probe]
          rw [if_neg hcond, hb]
          rfl


lemma cosmos_probe_cases (env : Env) (i : Bool) (c : Except String Unit) :
    (∃ e, cosmos_probe env i c = [("ok", .vBool false), ("error", .vStr e)]) ∨
    cosmos_probe env i c =
      [("ok", .vBool true),
       ("database", optStrVal (env.get ("COSMOS_DATABASE_NAME"))),
       ("container", optStrVal (env.get ("COSMOS_CONTAINER_NAME")))] := by
  cases i with
  | false => exact Or.inl ⟨nameErrorMsg, rfl⟩
  | true =>
      cases c with
      | error e => exact Or.inl ⟨e, rfl⟩
      | ok u => exact Or.inr rfl

lemma storage_ok_bool (env : Env) (b : String → String → Except String String) :
    dictGet (storage_probe env b) ("ok") = some (.vBool true) ∨
    dictGet (storage_probe env b) ("ok") = some (.vBool false) := by
  rcases storage_probe_cases env b with ⟨_, h⟩ | ⟨e, _, _, h⟩ | ⟨u, _, _, h⟩ <;> rw [h]
  · exact Or.inr rfl
  · exact Or.inr rfl
  · exact Or.inl rfl

lemma cosmos_ok_bool (env : Env) (i : Bool) (c : Except String Unit) :
    dictGet (cosmos_probe env i c) ("ok") = some (.vBool true) ∨
    dictGet (cosmos_probe env i c) ("ok") = some (.vBool false) := by
  rcases cosmos_probe_cases env i c with ⟨e, h⟩ | h <;> rw [h]
  · exact Or.inr rfl
  · exact Or.inl rfl

lemma bootstrap_foldl (o : String → RegOutcome) (l : List String) (app : AppState) :
    l.foldl (fun a n => register_module a n (o n)) app =
      ⟨app.attempted ++ l, app.registered ++ l.filter (fun n => (o n).isSuccess)⟩ := by
  induction l generalizing app with
  | nil => simp
  | cons n t ih =>
      rw [List.foldl_cons, ih]
      cases h : o n <;>
        simp [register_module, h, RegOutcome.isSuccess, List.filter_cons,
          List.append_assoc]

lemma bootstrap_eq (o : String → RegOutcome) :
    bootstrap o = ⟨moduleNames, moduleNames.filter (fun n => (o n).isSuccess)⟩ := by
  unfold bootstrap
  rw [bootstrap_foldl]
  simp

/- ----------------------------------------------------------------------
Claim theorems.
---------------------------------------------------------------------- -/

/-- C1: the extended health check reports status "ok" exactly when both
the storage and the cosmos probe dictionaries carry ok = true; the only
other reachable status value is "error" (there is no third, degraded
value); and on a concrete configured environment the four probe outcome
combinations TT, TF, FT, FF yield the statuses ok, error, error, error. -/
theorem health_extended_status_conjunctive :
    (∀ (env : Env) (b : String → String → Except String String)
        (i : Bool) (c : Except String Unit),
      (dictGet (http_health_check_extended env b i c).body ("status") = some (.vStr "ok") ↔
        (dictGet (storage_probe env b) ("ok") = some (.vBool true) ∧
         dictGet (cosmos_probe env i c) ("ok") = some (.vBool true))) ∧
      (dictGet (http_health_check_extended env b i c).body ("status") = some (.vStr "ok") ∨
       dictGet (http_health_check_extended env b i c).body ("status") = some (.vStr "error"))) ∧
    dictGet (http_health_check_extended envFull blobOk true cosmosOk).body ("status") =
      some (.vStr "ok") ∧
    dictGet (http_health_check_extended envFull blobOk true cosmosDown).body ("status") =
      some (.vStr "error") ∧
    dictGet (http_health_check_extended envFull blobDown true cosmosOk).body ("status") =
      some (.vStr "error") ∧
    dictGet (http_health_check_extended envFull blobDown true cosmosDown).body ("status") =
      some (.vStr "error") := by
  refine ⟨?_, rfl, rfl, rfl, rfl⟩
  intro env b i c
  rw [ext_body, body_get_status]
  rcases storage_ok_bool env b with hs | hs <;>
    rcases cosmos_ok_bool env i c with hc | hc <;>
      rw [hs, hc] <;> simp [truthy]

/-- C2: the extended health check returns HTTP 200 exactly when the body
status is "ok", and the only other reachable status code is 500, for every
environment and every combination of probe outcomes. -/
theorem health_extended_code_matches_status (env : Env)
    (b : String → String → Except String String) (i : Bool) (c : Except String Unit) :
    ((http_health_check_extended env b i c).status_code = 200 ↔
      dictGet (http_health_check_extended env b i c).body ("status") = some (.vStr "ok")) ∧
    ((http_health_check_extended env b i c).status_code = 200 ∨
     (http_health_check_extended env b i c).status_code = 500) := by
  rw [ext_status_code, ext_body, body_get_status]
  cases h : truthy (dictGet (storage_probe env b) ("ok")) &&
      truthy (dictGet (cosmos_probe env i c) ("ok")) <;> simp [h]

/-- C3: for every combination of probe outcomes the extended health body
contains the keys status, storage and cosmos; the cosmos entry is exactly
the cosmos probe result, stated without reference to the blob backend, and
replacing the blob backend (including a failing one) leaves the cosmos
entry unchanged — the storage probe outcome never short-circuits the
cosmos probe. -/
theorem health_extended_body_complete (env : Env)
    (b b2 : String → String → Except String String) (i : Bool) (c : Except String Unit) :
    dictGet (http_health_check_extended env b i c).body ("status") ≠ none ∧
    dictGet (http_health_check_extended env b i c).body ("storage") =
      some (.vDict (storage_probe env b)) ∧
    dictGet (http_health_check_extended env b i c).body ("cosmos") =
      some (.vDict (cosmos_probe env i c)) ∧
    dictGet (http_health_check_extended env b i c).body ("cosmos") =
      dictGet (http_health_check_extended env b2 i c).body ("cosmos") := by
  refine ⟨?_, ?_, ?_, ?_⟩
  · rw [ext_body, body_get_status]
    simp
  · rw [ext_body, body_get_storage]
  · rw [ext_body, body_get_cosmos]
  · rw [ext_body, body_get_cosmos, ext_body, body_get_cosmos]

/-- C4: whatever outcomes the five registration blocks have, the bootstrap
attempts every module in the fixed order; a module ends up registered
exactly when its own block succeeded; and the registration of one module
is unaffected by any change to the outcomes of the other modules. -/
theorem bootstrap_isolates_module_failures (o : String → RegOutcome) :
    (bootstrap o).attempted = moduleNames ∧
    (∀ n, n ∈ (bootstrap o).registered ↔
      (n ∈ moduleNames ∧ (o n).isSuccess = true)) ∧
    (∀ o2 : String → RegOutcome, ∀ n, o n = o2 n →
      (n ∈ (bootstrap o).registered ↔ n ∈ (bootstrap o2).registered)) := by
  refine ⟨?_, ?_, ?_⟩
  · rw [bootstrap_eq]
  · intro n
    rw [bootstrap_eq]
    simp [List.mem_filter]
  · intro o2 n h
    rw [bootstrap_eq, bootstrap_eq]
    simp [List.mem_filter, h]

/-- C5: when neither storage connection-string variable is set to a
non-empty value, the storage probe reports ok = false with the descriptive
ValueError message, its result is the same whatever the blob backend would
have answered (no I/O outcome is consulted), and the extended health
request still completes with a structured body carrying that storage
result and a 500 status code. -/
theorem storage_probe_missing_config (env : Env)
    (h : strTruthy (connStr env) = false)
    (b b2 : String → String → Except String String)
    (i : Bool) (c : Except String Unit) :
    storage_probe env b = [("ok", .vBool false), ("error", .vStr missingConnMsg)] ∧
    storage_probe env b = storage_probe env b2 ∧
    dictGet (http_health_check_extended env b i c).body ("storage") =
      some (.vDict [("ok", .vBool false), ("error", .vStr missingConnMsg)]) ∧
    (http_health_check_extended env b i c).status_code = 500 := by
  have hs : ∀ b3 : String → String → Except String String,
      storage_probe env b3 = [("ok", .vBool false), ("error", .vStr missingConnMsg)] := by
    intro b3
    simp only [storage_probe]
    rw [if_pos h]
    rfl
  refine ⟨hs b, (hs b).trans (hs b2).symm, ?_, ?_⟩
  · rw [ext_body, body_get_storage, hs b]
  · rw [ext_status_code, hs b]
    simp [truthy, dictGet]

/-- C5 witness: the empty environment has no connection string, and there
the storage probe reports the missing-configuration failure while the
request completes with a 500 response. -/
theorem storage_probe_missing_config_witness :
    strTruthy (connStr envEmpty) = false ∧
    (storage_probe envEmpty blobOk =
        [("ok", .vBool false), ("error", .vStr missingConnMsg)] ∧
      storage_probe envEmpty blobOk = storage_probe envEmpty blobDown ∧
      dictGet (http_health_check_extended envEmpty blobOk true cosmosOk).body ("storage") =
        some (.vDict [("ok", .vBool false), ("error", .vStr missingConnMsg)]) ∧
      (http_health_check_extended envEmpty blobOk true cosmosOk).status_code = 500) :=
  ⟨rfl, storage_probe_missing_config envEmpty rfl blobOk blobDown true cosmosOk⟩

/-- C6: an exception raised by the blob calls (once the connection string
is present) and an exception raised by the cosmos calls are each caught at
their probe boundary and recorded as ok = false with the exception text
under the error key, and the extended handler still assembles the full
structured body from both results — no exception escapes it. -/
theorem probe_exceptions_converted (env : Env) (e e2 : String)
    (h : strTruthy (connStr env) = true) :
    storage_probe env (fun _ _ => .error e) =
      [("ok", .vBool false), ("error", .vStr e)] ∧
    cosmos_probe env true (.error e2) =
      [("ok", .vBool false), ("error", .vStr e2)] ∧
    (http_health_check_extended env (fun _ _ => .error e) true (.error e2)).body =
      [("status", .vStr "error"),
       ("storage", .vDict [("ok", .vBool false), ("error", .vStr e)]),
       ("cosmos", .vDict [("ok", .vBool false), ("error", .vStr e2)])] := by
  have hcond : ¬ (strTruthy (connStr env) = false) := by simp [h]
  have hs : storage_probe env (fun _ _ => .error e) =
      [("ok", .vBool false), ("error", .vStr e)] := by
    simp only [storage_probe]
    rw [if_neg hcond]
    rfl
  have hc : cosmos_probe env true (.error e2) =
      [("ok", .vBool false), ("error", .vStr e2)] := by rfl
  have hgs : dictGet [("ok", .vBool false), ("error", .vStr e)] ("ok") =
      some (.vBool false) := rfl
  have hgc : dictGet [("ok", .vBool false), ("error", .vStr e2)] ("ok") =
      some (.vBool false) := rfl
  refine ⟨hs, hc, ?_⟩
  rw [ext_body, hs, hc, hgs, hgc]
  simp [truthy]

/-- C6 witness: on the configured environment, a storage exception and a
cosmos exception are both converted into ok = false entries of the
structured body. -/
theorem probe_exceptions_converted_witness :
    strTruthy (connStr envFull) = true ∧
    (storage_probe envFull (fun _ _ => .error ("storage unreachable")) =
        [("ok", .vBool false), ("error", .vStr "storage unreachable")] ∧
      cosmos_probe envFull true (.error ("cosmos unreachable")) =
        [("ok", .vBool false), ("error", .vStr "cosmos unreachable")] ∧
      (http_health_check_extended envFull (fun _ _ => .error ("storage unreachable"))
          true (.error ("cosmos unreachable"))).body =
        [("status", .vStr "error"),
         ("storage", .vDict [("ok", .vBool false), ("error", .vStr "storage unreachable")]),
         ("cosmos", .vDict [("ok", .vBool false), ("error", .vStr "cosmos unreachable")])]) :=
  ⟨rfl, probe_exceptions_converted envFull ("storage unreachable") ("cosmos unreachable") rfl⟩

/-- C7: the shallow health endpoint is the constant 200 response with body
status ok; its construction, as an Except computation, succeeds, so the
500 arm of the handler is unreachable.  The embedding takes no backend or
environment argument at all: the endpoint consults no dependency. -/
theorem health_shallow_constant :
    http_health_check.status_code = 200 ∧
    http_health_check.body = [("status", .vStr "ok")] ∧
    build_health_body = Except.ok http_health_check :=
  ⟨rfl, rfl, rfl⟩

/-- C8 counterexample: the cosmos probe is not side-effect-free on the
backend state — when the configured container does not exist, the
get-or-create container acquisition of line 159 (source comment: "Attempt
to get (and if needed create) the container") leaves the backend changed,
with the container now existing. -/
theorem cosmos_probe_mutates_on_missing_container :
    (cosmos_probe_effect ⟨false, []⟩).1 ≠ (⟨false, []⟩ : CosmosState) ∧
    ((cosmos_probe_effect ⟨false, []⟩).1).containerExists = true := by
  constructor
  · intro h
    have := congrArg CosmosState.containerExists h
    simp [cosmos_probe_effect, get_container] at this
  · rfl

/-- C8 amended: the cosmos probe never writes or deletes items and its
query is bounded to at most one result item, but its container acquisition
is get-or-create, so after the probe the container exists — creating it
when it was absent. -/
theorem cosmos_probe_bounded_read (s : CosmosState) :
    ((cosmos_probe_effect s).1).items = s.items ∧
    ((cosmos_probe_effect s).1).containerExists = true ∧
    (cosmos_probe_effect s).2.length ≤ 1 := by
  refine ⟨rfl, rfl, ?_⟩
  simp only [cosmos_probe_effect, query_items_top1, get_container]
  exact (List.length_take_le 1 _).trans (le_refl 1)

/-- C9: each probe result dictionary always carries the ok key with a
boolean value; the storage ok is true exactly when the connection string
was present and the blob call succeeded, the cosmos ok is true exactly
when the import succeeded and the cosmos call succeeded; and the Python
conjunction of line 174 is truthy exactly when both lookups are — so an
outcome left unset by an early exception can never be read as success. -/
theorem probe_ok_always_present (env : Env)
    (b : String → String → Except String String) (i : Bool) (c : Except String Unit) :
    (dictGet (storage_probe env b) ("ok") = some (.vBool true) ∨
     dictGet (storage_probe env b) ("ok") = some (.vBool false)) ∧
    (dictGet (cosmos_probe env i c) ("ok") = some (.vBool true) ∨
     dictGet (cosmos_probe env i c) ("ok") = some (.vBool false)) ∧
    (dictGet (storage_probe env b) ("ok") = some (.vBool true) ↔
      (strTruthy (connStr env) = true ∧
       ∃ u, b ((connStr env).getD "") (ingestionContainer env) = .ok u)) ∧
    (dictGet (cosmos_probe env i c) ("ok") = some (.vBool true) ↔
      (i = true ∧ c = .ok ())) ∧
    (∀ a a2 : Option Val, truthy (pyAnd a a2) = (truthy a && truthy a2)) := by
  refine ⟨storage_ok_bool env b, cosmos_ok_bool env i c, ?_, ?_, truthy_pyAnd⟩
  · constructor
    · intro hok
      rcases storage_probe_cases env b with ⟨ht, hp⟩ | ⟨e, ht, hb, hp⟩ | ⟨u, ht, hb, hp⟩
      · rw [hp] at hok
        have hv : dictGet [("ok", Val.vBool false), ("error", Val.vStr missingConnMsg)]
            ("ok") = some (.vBool false) := rfl
        rw [hv] at hok
        exact absurd hok (by simp)
      · rw [hp] at hok
        have hv : dictGet [("ok", Val.vBool false), ("error", Val.vStr e)] ("ok") =
            some (.vBool false) := rfl
        rw [hv] at hok
        exact absurd hok (by simp)
      · exact ⟨ht, u, hb⟩
    · rintro ⟨ht, u, hu⟩
      rcases storage_probe_cases env b with ⟨ht2, hp⟩ | ⟨e, ht2, hb, hp⟩ | ⟨u2, ht2, hb, hp⟩
      · rw [ht] at ht2
        exact absurd ht2 (by simp)
      · rw [hu] at hb
        exact absurd hb (by simp)
      · rw [hp]
        rfl
  · cases i with
    | false =>
        constructor
        · intro hok
          have hv : dictGet (cosmos_probe env false c) ("ok") =
              some (.vBool false) := rfl
          rw [hv] at hok
          exact absurd hok (by simp)
        · rintro ⟨hi, _⟩
          exact absurd hi (by simp)
    | true =>
        cases c with
        | error e =>
            constructor
            · intro hok
              have hv : dictGet (cosmos_probe env true (.error e)) ("ok") =
                  some (.vBool false) := rfl
              rw [hv] at hok
              exact absurd hok (by simp)
            · rintro ⟨_, hc⟩
              exact absurd hc (by simp)
        | ok u =>
            constructor
            · intro _
              exact ⟨rfl, rfl⟩
            · intro _
              rfl

/-- C10: when the cosmos_ops import failed at process start, the extended
endpoint still answers every request with the full structured body: the
cosmos entry reports ok = false with the NameError text, the storage entry
is exactly the storage probe result and coincides with what it would have
been had the import succeeded, and the status entry is present (here
"error", since the cosmos probe failed). -/
theorem health_extended_survives_failed_import (env : Env)
    (b : String → String → Except String String) (c : Except String Unit) :
    dictGet (http_health_check_extended env b false c).body ("cosmos") =
      some (.vDict [("ok", .vBool false), ("error", .vStr nameErrorMsg)]) ∧
    dictGet (http_health_check_extended env b false c).body ("storage") =
      some (.vDict (storage_probe env b)) ∧
    dictGet (http_health_check_extended env b false c).body ("storage") =
      dictGet (http_health_check_extended env b true c).body ("storage") ∧
    dictGet (http_health_check_extended env b false c).body ("status") =
      some (.vStr "error") := by
  have hc : cosmos_probe env false c =
      [("ok", .vBool false), ("error", .vStr nameErrorMsg)] := by rfl
  have hgc : dictGet [("ok", .vBool false), ("error", .vStr nameErrorMsg)] ("ok") =
      some (.vBool false) := rfl
  refine ⟨?_, ?_, ?_, ?_⟩
  · rw [ext_body, body_get_cosmos, hc]
  · rw [ext_body, body_get_storage]
  · rw [ext_body, body_get_storage, ext_body, body_get_storage]
  · rw [ext_body, body_get_status, hc, hgc]
    simp [truthy]

end Snippy
